import Mathlib

/-!
Verification of the fezer runtime primitives (fezer_sync channels and mutex,
fezer_threadpool) against their natural-language specification.

The Rust sources are shallowly embedded: each stateful component becomes a
Lean structure holding the fields of the Rust state (including the relevant
state of the underlying `std::sync::mpsc` channel and `std::sync::Mutex`),
and each operation becomes a pure function from state to state that also
reports which wakers were woken, or an event trace.  Wakers are identified
by natural numbers; waking a waker is recorded, not executed.  A Rust
`panic!` / failed `unwrap` / failed `assert!` is modelled as `Option.none`
(or a dedicated `panicked` outcome) so that reachability of panics can be
stated.
-/

namespace Fezer

/-- A task waker.  The runtime only clones, stores and wakes wakers, so an
opaque identifier suffices. -/
abbrev Waker := Nat

/-- The result of polling a future, `core::task::Poll`. -/
inductive Poll (A : Type) where
  | ready (a : A)
  | pending
deriving DecidableEq, Repr

namespace Channel

/-- The error `std::sync::mpsc::RecvError`. -/
inductive RecvError where
  | mk
deriving DecidableEq, Repr

/-- The error `std::sync::mpsc::TryRecvError`. -/
inductive TryRecvError where
  | empty
  | disconnected
deriving DecidableEq, Repr

/-- The error `std::sync::mpsc::RecvTimeoutError`. -/
inductive RecvTimeoutError where
  | timeout
  | disconnected
deriving DecidableEq, Repr

/-- The error `std::sync::mpsc::SendError(T)`: the value is handed back. -/
inductive SendError (T : Type) where
  | mk (v : T)
deriving DecidableEq, Repr

/-- Combined state of one fezer channel (`oneshot` or `sync_channel`): the
buffer of the underlying `std::sync::mpsc::sync_channel`, the live sender
handles, and the fezer `Inner { sender_wakers, receiver_waker }`.

* `queue` / `capacity`: the std bounded buffer, FIFO with at most
  `capacity` elements.
* `numSenders`: live `OneSender` / `SyncSender` handles.  Each live handle
  owns a std sender and one `Arc` reference to `Inner` (`Drop` takes the
  std sender away).
* `numSendFuts`: live `SendFut` values; each owns a clone of the std
  sender and one `Arc` reference to `Inner`.
* `receiverAlive`: whether the `Receiver` (owner of the std receiver and of
  one `Arc` reference) still exists.
* `senderWakers` / `receiverWaker`: the two fields of `Inner`. -/
structure ChanState (T : Type) where
  capacity : Nat
  queue : List T
  numSenders : Nat
  numSendFuts : Nat
  receiverAlive : Bool
  senderWakers : List Waker
  receiverWaker : Option Waker
deriving DecidableEq, Repr

/-- Number of live `std::sync::mpsc::SyncSender` endpoints: one per live
fezer sender handle plus one per live `SendFut` (which holds a clone). -/
def stdSenderCount {T : Type} (s : ChanState T) : Nat :=
  s.numSenders + s.numSendFuts

/-- The `Arc::strong_count` of the shared `Inner`: the receiver, every
sender handle and every `SendFut` hold one reference each. -/
def innerStrongCount {T : Type} (s : ChanState T) : Nat :=
  (if s.receiverAlive then 1 else 0) + s.numSenders + s.numSendFuts

/-- Result of `std::sync::mpsc::Receiver::try_recv`. -/
inductive StdTryRecv (T : Type) where
  | ok (v : T)
  | empty
  | disconnected
deriving DecidableEq, Repr

/-- `std::sync::mpsc::Receiver::try_recv`: pop the oldest buffered value;
on an empty buffer report `Disconnected` when every std sender endpoint has
been dropped, `Empty` otherwise. -/
def stdTryRecv {T : Type} (s : ChanState T) : StdTryRecv T × ChanState T :=
  match s.queue with
  | v :: rest => (.ok v, { s with queue := rest })
  | [] => if stdSenderCount s = 0 then (.disconnected, s) else (.empty, s)

/-- `Receiver::wake_senders` (channel.rs lines 256-263): take the whole
`sender_wakers` list out of `Inner` and wake every entry. -/
def wake_senders {T : Type} (s : ChanState T) : ChanState T × List Waker :=
  ({ s with senderWakers := [] }, s.senderWakers)

/-- `Receiver::poll` (channel.rs lines 368-396).  Returns the poll result,
the successor state, and the wakers woken during the call. -/
def Receiver.poll {T : Type} (s : ChanState T) (w : Waker) :
    Poll (Except RecvError T) × ChanState T × List Waker :=
  match stdTryRecv s with
  | (.ok v, s1) =>
      let ws := wake_senders s1
      (.ready (.ok v), ws.1, ws.2)
  | (.disconnected, s1) => (.ready (.error RecvError.mk), s1, [])
  | (.empty, s1) =>
      if innerStrongCount s1 < 2 then
        (.ready (.error RecvError.mk), s1, [])
      else
        (.pending, { s1 with receiverWaker := some w }, [])

/-- `Receiver::try_recv` (channel.rs lines 288-291): delegate to the std
`try_recv`, then `wake_senders_if_ok`. -/
def Receiver.try_recv {T : Type} (s : ChanState T) :
    Except TryRecvError T × ChanState T × List Waker :=
  match stdTryRecv s with
  | (.ok v, s1) =>
      let ws := wake_senders s1
      (.ok v, ws.1, ws.2)
  | (.empty, s1) => (.error .empty, s1, [])
  | (.disconnected, s1) => (.error .disconnected, s1, [])

/-- `Receiver::recv` (channel.rs lines 296-299) observed at the instant the
blocking std `recv` returns.  `none` means the call blocks in this state
(empty buffer, std senders still connected) and returns no result now. -/
def Receiver.recv_at {T : Type} (s : ChanState T) :
    Option (Except RecvError T × ChanState T × List Waker) :=
  match s.queue with
  | v :: rest =>
      let ws := wake_senders { s with queue := rest }
      some (.ok v, ws.1, ws.2)
  | [] =>
      if stdSenderCount s = 0 then
        some (.error RecvError.mk, s, [])
      else
        none

/-- `Receiver::recv_timeout` (channel.rs lines 304-310) observed at the
instant the std `recv_timeout` returns; `timedOut` records whether the std
call gave up with `Timeout`.  `none` means the call is still blocked. -/
def Receiver.recv_timeout_at {T : Type} (s : ChanState T) (timedOut : Bool) :
    Option (Except RecvTimeoutError T × ChanState T × List Waker) :=
  match s.queue with
  | v :: rest =>
      let ws := wake_senders { s with queue := rest }
      some (.ok v, ws.1, ws.2)
  | [] =>
      if stdSenderCount s = 0 then
        some (.error .disconnected, s, [])
      else if timedOut then
        some (.error .timeout, s, [])
      else
        none

/-- The state of a `SendFut`: the `Cell<Option<T>>` holding the value not
yet pushed.  (The std sender clone and `Arc` it owns are part of the
channel state's counts.) -/
structure SendFutState (T : Type) where
  value : Option T
deriving DecidableEq, Repr

/-- Result of `std::sync::mpsc::SyncSender::try_send`. -/
inductive StdTrySend (T : Type) where
  | ok
  | full (v : T)
  | disconnected (v : T)
deriving DecidableEq, Repr

/-- `std::sync::mpsc::SyncSender::try_send`: fail with `Disconnected` when
the std receiver is gone, push when the buffer has room, else `Full`. -/
def stdTrySend {T : Type} (s : ChanState T) (v : T) : StdTrySend T × ChanState T :=
  if s.receiverAlive = false then (.disconnected v, s)
  else if s.queue.length < s.capacity then (.ok, { s with queue := s.queue ++ [v] })
  else (.full v, s)

/-- `SendFut::poll` (channel.rs lines 92-107).  The first statement is
`self.value.take().take().unwrap()`: when the cell is empty the `unwrap`
panics, modelled as `none`.  Otherwise the value is pushed via the std
`try_send`; on `Full` it is put back into the cell and the caller's waker
is appended to `sender_wakers`. -/
def SendFut.poll {T : Type} (fut : SendFutState T) (s : ChanState T) (w : Waker) :
    Option (Poll (Except (SendError T) Unit) × SendFutState T × ChanState T) :=
  match fut.value with
  | none => none
  | some v =>
      match stdTrySend s v with
      | (.ok, s1) => some (.ready (.ok ()), ⟨none⟩, s1)
      | (.disconnected v1, s1) => some (.ready (.error (.mk v1)), ⟨none⟩, s1)
      | (.full v1, s1) =>
          some (.pending, ⟨some v1⟩,
            { s1 with senderWakers := s1.senderWakers ++ [w] })

end Channel

namespace AsyncMutex

/-- Events emitted while a `MutexGuard` is dropped (mutex.rs lines 82-98),
in the order they happen. -/
inductive MEvent where
  | lockInner
  | setUnlocked
  | takeWakers
  | unlockInner
  | dropValueGuard
  | wake (w : Waker)
deriving DecidableEq, Repr

/-- State of one `fezer_sync::mutex::Mutex<T>` together with ghost
information about the guard objects alive for it.

* `value`: the protected value (inside `std::sync::Mutex<T>`).
* `valueLocked`: whether the std value mutex is currently held (a
  `std::sync::MutexGuard` for it exists).
* `locked` / `wakers`: the two fields of `Inner`.
* `numGuards`: ghost count of live `MutexGuard` objects.  Each live
  `MutexGuard` owns the std value guard, so guard creation requires a
  successful `try_lock` of the value mutex. -/
structure MutexState (T : Type) where
  value : T
  valueLocked : Bool
  locked : Bool
  wakers : List Waker
  numGuards : Nat
deriving DecidableEq, Repr

/-- `std::sync::Mutex::try_lock` on the value mutex (mutex.rs line 145):
fails (`WouldBlock`) when the std guard is already held, otherwise hands
the caller the std guard. -/
def tryLockValue {T : Type} (s : MutexState T) : Option (MutexState T) :=
  if s.valueLocked then none else some { s with valueLocked := true }

/-- `MutexGuard::new` (mutex.rs lines 63-74), invoked with the std value
guard freshly obtained from `tryLockValue`: under the inner state lock it
asserts `locked == false` (assertion failure modelled as `none`), sets
`locked = true` and wraps the std guard into a new `MutexGuard` object. -/
def MutexGuard.new {T : Type} (s : MutexState T) : Option (MutexState T) :=
  if s.locked then none
  else some { s with locked := true, numGuards := s.numGuards + 1 }

/-- The immediate acquisition path of `LockFuture::poll` (mutex.rs lines
145-147): `try_lock` the value mutex and, on success, build the guard via
`MutexGuard::new`. -/
def acquireGuard {T : Type} (s : MutexState T) : Option (MutexState T) :=
  match tryLockValue s with
  | none => none
  | some s1 => MutexGuard.new s1

/-- `MutexGuard::drop` (mutex.rs lines 82-98): under the inner state lock,
assert `locked == true` (failure modelled as `none`), set `locked = false`
and swap out the whole waker FIFO; release the inner lock; drop the std
value guard; then wake every taken waker in FIFO order.  Returns the
successor state together with the ordered event trace of the call. -/
def MutexGuard.drop {T : Type} (s : MutexState T) :
    Option (MutexState T × List MEvent) :=
  if s.locked = false then none
  else
    some
      ({ s with
          locked := false, wakers := [], valueLocked := false
          numGuards := s.numGuards - 1 },
        [MEvent.lockInner, MEvent.setUnlocked, MEvent.takeWakers,
          MEvent.unlockInner, MEvent.dropValueGuard] ++ s.wakers.map MEvent.wake)

/-- The mutex invariant relating the `locked` flag, the std value mutex and
the population of guard objects: at most one guard exists, `locked` is true
iff exactly one guard exists, and the std value mutex is held iff a guard
holds it. -/
def MutexInv {T : Type} (s : MutexState T) : Prop :=
  s.numGuards ≤ 1 ∧ (s.locked = true ↔ s.numGuards = 1) ∧
    (s.valueLocked = true ↔ s.numGuards = 1)

instance {T : Type} (s : MutexState T) : Decidable (MutexInv s) := by
  unfold MutexInv; infer_instance

end AsyncMutex

namespace Pool

/-- The kind of a `std::io::Error`, restricted to the kinds the pool code
mentions plus representative other kinds for the preservation statements. -/
inductive ErrorKind where
  | invalidInput
  | wouldBlock
  | other
  | permissionDenied
  | resourceBusy
deriving DecidableEq, Repr

/-- A `std::io::Error`: a kind and a message. -/
structure IoError where
  kind : ErrorKind
  msg : String
deriving DecidableEq, Repr

/-- `error.rs` lines 22-32: `StartThreadsError`. -/
inductive StartThreadsError where
  | NoThreads (e : IoError)
  | Respawn (e : IoError)
deriving DecidableEq, Repr

/-- `error.rs` lines 88-97: `NewThreadPoolError`. -/
inductive NewThreadPoolError where
  | Parameter (msg : String)
  | Spawn (e : IoError)
deriving DecidableEq, Repr

/-- `error.rs` lines 176-188: `TryScheduleError`. -/
inductive TryScheduleError where
  | QueueFull
  | NoThreads (e : IoError)
  | Respawn (e : IoError)
deriving DecidableEq, Repr

/-- `impl From<StartThreadsError> for NewThreadPoolError`
(error.rs lines 135-150). -/
def NewThreadPoolError.fromStart : StartThreadsError → NewThreadPoolError
  | .NoThreads e => .Spawn e
  | .Respawn e => .Spawn e

/-- `impl From<StartThreadsError> for TryScheduleError`
(error.rs lines 243-256). -/
def TryScheduleError.fromStart : StartThreadsError → TryScheduleError
  | .NoThreads e => .NoThreads e
  | .Respawn e => .Respawn e

/-- `impl From<NewThreadPoolError> for std::io::Error`
(error.rs lines 152-171). -/
def NewThreadPoolError.toIoError : NewThreadPoolError → IoError
  | .Parameter s => ⟨.invalidInput, s⟩
  | .Spawn e => ⟨.other, "failed to start threads: " ++ e.msg⟩

/-- `impl From<TryScheduleError> for std::io::Error`
(error.rs lines 258-297). -/
def TryScheduleError.toIoError : TryScheduleError → IoError
  | .QueueFull => ⟨.wouldBlock, "TryScheduleError::QueueFull"⟩
  | .NoThreads e =>
      ⟨e.kind,
        "ThreadPool workers all panicked, failed starting replacement threads: "
          ++ e.msg⟩
  | .Respawn e =>
      ⟨e.kind,
        "ThreadPool failed starting threads to replace panicked threads: "
          ++ e.msg⟩

/-- State of a `ThreadPool` handle together with its shared `Inner`
(threadpool/mod.rs lines 41-48, inner.rs lines 21-35) and the job channel.

* `name` / `size` / `nextNameNum`: the `Inner` record (`next_name_num` is
  the `AtomicCounter`).
* `queueLen` / `capacity`: the bounded job queue created with
  `sync_channel(size * 200)`.
* `receiverCount`: live receiver endpoints of the job queue.  The single
  receiver lives inside `Inner`, which the pool handle keeps alive through
  its `Arc`, so a live handle implies `receiverCount = 1`.
* `liveThreads`: live worker threads (`Arc::strong_count(inner) - 1`). -/
structure ThreadPool where
  name : String
  size : Nat
  nextNameNum : Nat
  queueLen : Nat
  capacity : Nat
  receiverCount : Nat
  liveThreads : Nat
deriving DecidableEq, Repr

/-- The OS environment seen by `spawn_thread`: `none` when
`std::thread::Builder::spawn` (or the `INTERNAL_MAX_THREADS` bound check)
currently succeeds, `some e` when it currently fails with `e`. -/
structure SpawnEnv where
  spawnFailure : Option IoError
deriving DecidableEq, Repr

/-- `Inner::start_threads` (inner.rs lines 144-153): spawn one worker at a
time while `num_live_threads < size`.  Each `start_thread` classifies a
spawn failure as `NoThreads` when no workers are live, else `Respawn`;
while spawning succeeds the loop runs until the pool is full, incrementing
the name counter once per spawned worker. -/
def startThreads (env : SpawnEnv) (p : ThreadPool) :
    Except StartThreadsError ThreadPool :=
  if p.liveThreads ≥ p.size then .ok p
  else
    match env.spawnFailure with
    | some e =>
        if p.liveThreads = 0 then .error (.NoThreads e) else .error (.Respawn e)
    | none =>
        .ok { p with
                liveThreads := p.size
                nextNameNum := p.nextNameNum + (p.size - p.liveThreads) }

/-- Events recorded while running pool operations. -/
inductive PEvent where
  | replenish
  | enqueue
  | enqueueFull
  | sleep
deriving DecidableEq, Repr

/-- `ThreadPool::new` (threadpool/mod.rs lines 55-100): reject an empty
name, then a size below 1, with `Parameter` errors; otherwise build the
inner state, the `size * 200` job queue, and call `start_threads`, whose
error converts to `Spawn` via `From<StartThreadsError>`.  The event list
records each `start_threads` call as `replenish`. -/
def ThreadPool.new (env : SpawnEnv) (name : String) (size : Nat) :
    Except NewThreadPoolError ThreadPool × List PEvent :=
  if name = "" then
    (.error (.Parameter "ThreadPool::new called with empty name"), [])
  else if size < 1 then
    (.error (.Parameter
        ("ThreadPool::new called with invalid size value: " ++ toString size)), [])
  else
    let pool : ThreadPool :=
      ⟨name, size, 0, 0, size * 200, 1, 0⟩
    match startThreads env pool with
    | .ok p => (.ok p, [.replenish])
    | .error e => (.error (NewThreadPoolError.fromStart e), [.replenish])

/-- Result of `std::sync::mpsc::SyncSender::try_send` on the job queue. -/
inductive StdTrySendJob where
  | ok
  | full
  | disconnected
deriving DecidableEq, Repr

/-- `try_send` on the job queue: `Disconnected` when every receiver
endpoint is gone, otherwise push if the bounded buffer has room. -/
def stdTrySendJob (p : ThreadPool) : StdTrySendJob × ThreadPool :=
  if p.receiverCount = 0 then (.disconnected, p)
  else if p.queueLen < p.capacity then (.ok, { p with queueLen := p.queueLen + 1 })
  else (.full, p)

/-- Outcome of `ThreadPool::schedule`. -/
inductive SchedOutcome where
  | done (p : ThreadPool) (trace : List PEvent)
  | panicked
deriving DecidableEq, Repr

/-- `ThreadPool::schedule` (threadpool/mod.rs lines 121-149), with an
explicit iteration budget (`none` when the budget runs out while the call
is still looping).  Each loop iteration: call `start_threads`
(`replenish`); on `NoThreads` sleep 10 ms and retry; on `Ok`/`Respawn`
proceed to `try_send`; an `Ok` send returns, the `Disconnected` branch is
`unreachable!()` (modelled as `panicked`), and on `Full` the job is kept,
the thread sleeps 10 ms and the loop retries. -/
def scheduleGo (env : SpawnEnv) : Nat → ThreadPool → List PEvent →
    Option SchedOutcome
  | 0, _, _ => none
  | fuel + 1, p, evs =>
    match startThreads env p with
    | .error (.NoThreads _) =>
        scheduleGo env fuel p (evs ++ [.replenish, .sleep])
    | .ok p1 =>
        match stdTrySendJob p1 with
        | (.ok, p2) => some (.done p2 (evs ++ [.replenish, .enqueue]))
        | (.disconnected, _) => some .panicked
        | (.full, p2) =>
            scheduleGo env fuel p2 (evs ++ [.replenish, .enqueueFull, .sleep])
    | .error (.Respawn _) =>
        match stdTrySendJob p with
        | (.ok, p2) => some (.done p2 (evs ++ [.replenish, .enqueue]))
        | (.disconnected, _) => some .panicked
        | (.full, p2) =>
            scheduleGo env fuel p2 (evs ++ [.replenish, .enqueueFull, .sleep])

/-- `ThreadPool::schedule` entry point: run the loop with an empty event
accumulator. -/
def ThreadPool.schedule (env : SpawnEnv) (fuel : Nat) (p : ThreadPool) :
    Option SchedOutcome :=
  scheduleGo env fuel p []

/-- Outcome of `ThreadPool::try_schedule`. -/
inductive TryOutcome where
  | result (r : Except TryScheduleError ThreadPool)
  | panicked
deriving Repr

/-- `ThreadPool::try_schedule` (threadpool/mod.rs lines 154-164): one
`try_send`; `Disconnected` is `unreachable!()` (modelled as `panicked`),
`Full` returns `QueueFull` without replenishing, and after a successful
send the `start_threads` error (if any) converts via
`From<StartThreadsError>`. -/
def ThreadPool.try_schedule (env : SpawnEnv) (p : ThreadPool) : TryOutcome :=
  match stdTrySendJob p with
  | (.disconnected, _) => .panicked
  | (.full, _) => .result (.error .QueueFull)
  | (.ok, p1) =>
      match startThreads env p1 with
      | .ok p2 => .result (.ok p2)
      | .error e => .result (.error (TryScheduleError.fromStart e))

/-- `start_threads` never touches the job-queue receiver: a successful run
returns a pool with the same receiver endpoints. -/
theorem startThreads_receiverCount (env : SpawnEnv) (p p1 : ThreadPool)
    (h : startThreads env p = .ok p1) : p1.receiverCount = p.receiverCount := by
  unfold startThreads at h
  split at h
  · injection h with h1
    rw [← h1]
  · cases henv : env.spawnFailure with
    | some e =>
        rw [henv] at h
        split at h
        · split at h <;> simp_all
        · simp_all
    | none =>
        rw [henv] at h
        injection h with h1
        rw [← h1]

/-- `try_send` on the job queue of a pool whose receiver endpoint is alive
never reports `Disconnected`, and it preserves the receiver endpoints. -/
theorem stdTrySendJob_connected (p : ThreadPool) (h : 1 ≤ p.receiverCount) :
    (stdTrySendJob p).1 ≠ .disconnected ∧
      (stdTrySendJob p).2.receiverCount = p.receiverCount := by
  have hne : ¬ p.receiverCount = 0 := by omega
  unfold stdTrySendJob
  by_cases hq : p.queueLen < p.capacity <;> simp [hne, hq]

/-- While the job-queue receiver endpoint stays alive, the `schedule` loop
can never take its `unreachable!()` branch, for any iteration budget and
accumulated events. -/
theorem scheduleGo_no_panic (env : SpawnEnv) (fuel : Nat) :
    ∀ p evs, 1 ≤ p.receiverCount →
      scheduleGo env fuel p evs ≠ some SchedOutcome.panicked := by
  induction fuel with
  | zero => intro p evs _h; simp [scheduleGo]
  | succ n ih =>
      intro p evs h
      rcases hst : startThreads env p with e | p1
      · cases e with
        | NoThreads e0 =>
            simp only [scheduleGo, hst]
            exact ih p (evs ++ [.replenish, .sleep]) h
        | Respawn e0 =>
            rcases hts : stdTrySendJob p with ⟨res, p2⟩
            have hcon := stdTrySendJob_connected p h
            rw [hts] at hcon
            cases res with
            | ok =>
                simp [scheduleGo, hst, hts]
            | disconnected => exact absurd rfl hcon.1
            | full =>
                simp only [scheduleGo, hst, hts]
                exact ih p2 (evs ++ [.replenish, .enqueueFull, .sleep])
                  (by rw [hcon.2]; exact h)
      · have h1 : 1 ≤ p1.receiverCount := by
          rw [startThreads_receiverCount env p p1 hst]; exact h
        rcases hts : stdTrySendJob p1 with ⟨res, p2⟩
        have hcon := stdTrySendJob_connected p1 h1
        rw [hts] at hcon
        cases res with
        | ok => simp [scheduleGo, hst, hts]
        | disconnected => exact absurd rfl hcon.1
        | full =>
            simp only [scheduleGo, hst, hts]
            exact ih p2 (evs ++ [.replenish, .enqueueFull, .sleep])
              (by rw [hcon.2]; exact h1)

/-- Every completed `schedule` loop ends with a replenish attempt
immediately followed by the successful enqueue, and the enqueue is the last
event of the trace. -/
theorem scheduleGo_done_trace (env : SpawnEnv) (fuel : Nat) :
    ∀ p evs p' tr, scheduleGo env fuel p evs = some (SchedOutcome.done p' tr) →
      ∃ pre, tr = pre ++ [PEvent.replenish, PEvent.enqueue] := by
  induction fuel with
  | zero => intro p evs p' tr h; simp [scheduleGo] at h
  | succ n ih =>
      intro p evs p' tr h
      rcases hst : startThreads env p with e | p1
      · cases e with
        | NoThreads e0 =>
            simp only [scheduleGo, hst] at h
            exact ih p (evs ++ [.replenish, .sleep]) p' tr h
        | Respawn e0 =>
            rcases hts : stdTrySendJob p with ⟨res, p2⟩
            cases res with
            | ok =>
                simp only [scheduleGo, hst, hts, Option.some.injEq] at h
                injection h with h1 h2
                exact ⟨evs, h2.symm⟩
            | disconnected => simp [scheduleGo, hst, hts] at h
            | full =>
                simp only [scheduleGo, hst, hts] at h
                exact ih p2 (evs ++ [.replenish, .enqueueFull, .sleep]) p' tr h
      · rcases hts : stdTrySendJob p1 with ⟨res, p2⟩
        cases res with
        | ok =>
            simp only [scheduleGo, hst, hts, Option.some.injEq] at h
            injection h with h1 h2
            exact ⟨evs, h2.symm⟩
        | disconnected => simp [scheduleGo, hst, hts] at h
        | full =>
            simp only [scheduleGo, hst, hts] at h
            exact ih p2 (evs ++ [.replenish, .enqueueFull, .sleep]) p' tr h

end Pool

end Fezer

/-- C1: when the `Receiver` future is polled with an empty internal queue
and no sender handles remaining (no live `OneSender`/`SyncSender` and no
in-flight `SendFut`), the poll resolves with the `Disconnected` error
`RecvError`: the state is unchanged (in particular no waker is installed in
`receiver_waker`) and nothing is woken, instead of suspending. -/
theorem receiver_poll_empty_no_senders_disconnects {T : Type}
    (s : Fezer.Channel.ChanState T) (w : Fezer.Waker)
    (hq : s.queue = []) (hs : s.numSenders = 0) (hf : s.numSendFuts = 0) :
    Fezer.Channel.Receiver.poll s w =
      (.ready (.error Fezer.Channel.RecvError.mk), s, []) := by
  simp [Fezer.Channel.Receiver.poll, Fezer.Channel.stdTryRecv,
    Fezer.Channel.stdSenderCount, hq, hs, hf]

/-- Witness for C1 at a concrete one-shot-shaped state. -/
theorem receiver_poll_empty_no_senders_disconnects_witness :
    Fezer.Channel.Receiver.poll
      (⟨1, [], 0, 0, true, [], none⟩ : Fezer.Channel.ChanState Nat) 7 =
      (.ready (.error Fezer.Channel.RecvError.mk),
        (⟨1, [], 0, 0, true, [], none⟩ : Fezer.Channel.ChanState Nat), []) :=
  receiver_poll_empty_no_senders_disconnects
    (⟨1, [], 0, 0, true, [], none⟩ : Fezer.Channel.ChanState Nat) 7 rfl rfl rfl

/-- C2: whenever a receive operation succeeds in removing an item —
`try_recv`, `recv`, `recv_timeout`, or a poll of the receive future that
returns `Ready(Ok _)` — the list of wakers woken by the call is exactly the
`sender_wakers` list registered at that moment, and the `sender_wakers`
list of the successor state is empty. -/
theorem recv_success_wakes_all_sender_wakers {T : Type}
    (s : Fezer.Channel.ChanState T) :
    (∀ (v : T) s' wk, Fezer.Channel.Receiver.try_recv s = (.ok v, s', wk) →
        wk = s.senderWakers ∧ s'.senderWakers = []) ∧
    (∀ (v : T) s' wk, Fezer.Channel.Receiver.recv_at s = some (.ok v, s', wk) →
        wk = s.senderWakers ∧ s'.senderWakers = []) ∧
    (∀ (b : Bool) (v : T) s' wk,
        Fezer.Channel.Receiver.recv_timeout_at s b = some (.ok v, s', wk) →
        wk = s.senderWakers ∧ s'.senderWakers = []) ∧
    (∀ (w : Fezer.Waker) (v : T) s' wk,
        Fezer.Channel.Receiver.poll s w = (.ready (.ok v), s', wk) →
        wk = s.senderWakers ∧ s'.senderWakers = []) := by
  refine ⟨?_, ?_, ?_, ?_⟩
  · intro v s' wk h
    match hq : s.queue with
    | [] =>
        by_cases hc : Fezer.Channel.stdSenderCount s = 0 <;>
          simp [Fezer.Channel.Receiver.try_recv, Fezer.Channel.stdTryRecv, hq, hc] at h
    | x :: rest =>
        have hcomp : Fezer.Channel.Receiver.try_recv s =
            (.ok x, { s with queue := rest, senderWakers := [] }, s.senderWakers) := by
          simp [Fezer.Channel.Receiver.try_recv, Fezer.Channel.stdTryRecv, hq,
            Fezer.Channel.wake_senders]
        rw [hcomp] at h
        injection h with ha hbc
        injection hbc with hb hc
        exact ⟨hc.symm, by rw [← hb]⟩
  · intro v s' wk h
    match hq : s.queue with
    | [] =>
        by_cases hc : Fezer.Channel.stdSenderCount s = 0 <;>
          simp [Fezer.Channel.Receiver.recv_at, hq, hc] at h
    | x :: rest =>
        have hcomp : Fezer.Channel.Receiver.recv_at s =
            some (.ok x, { s with queue := rest, senderWakers := [] }, s.senderWakers) := by
          simp [Fezer.Channel.Receiver.recv_at, hq, Fezer.Channel.wake_senders]
        rw [hcomp] at h
        injection h with h1
        injection h1 with ha hbc
        injection hbc with hb hc
        exact ⟨hc.symm, by rw [← hb]⟩
  · intro b v s' wk h
    match hq : s.queue with
    | [] =>
        by_cases hc : Fezer.Channel.stdSenderCount s = 0 <;> cases b <;>
          simp [Fezer.Channel.Receiver.recv_timeout_at, hq, hc] at h
    | x :: rest =>
        have hcomp : Fezer.Channel.Receiver.recv_timeout_at s b =
            some (.ok x, { s with queue := rest, senderWakers := [] }, s.senderWakers) := by
          simp [Fezer.Channel.Receiver.recv_timeout_at, hq, Fezer.Channel.wake_senders]
        rw [hcomp] at h
        injection h with h1
        injection h1 with ha hbc
        injection hbc with hb hc
        exact ⟨hc.symm, by rw [← hb]⟩
  · intro w v s' wk h
    match hq : s.queue with
    | [] =>
        by_cases hc : Fezer.Channel.stdSenderCount s = 0
        · simp [Fezer.Channel.Receiver.poll, Fezer.Channel.stdTryRecv, hq, hc] at h
        · by_cases hstrong : Fezer.Channel.innerStrongCount s < 2 <;>
            simp [Fezer.Channel.Receiver.poll, Fezer.Channel.stdTryRecv, hq, hc,
              hstrong] at h
    | x :: rest =>
        have hcomp : Fezer.Channel.Receiver.poll s w =
            (.ready (.ok x), { s with queue := rest, senderWakers := [] },
              s.senderWakers) := by
          simp [Fezer.Channel.Receiver.poll, Fezer.Channel.stdTryRecv, hq,
            Fezer.Channel.wake_senders]
        rw [hcomp] at h
        injection h with ha hbc
        injection hbc with hb hc
        exact ⟨hc.symm, by rw [← hb]⟩

/-- Witness for C2: a concrete `try_recv` on a buffered channel with two
parked sender wakers wakes exactly those two and empties the list. -/
theorem recv_success_wakes_all_sender_wakers_witness :
    ([3, 8] : List Fezer.Waker) =
      (⟨1, [5], 2, 0, true, [3, 8], none⟩ : Fezer.Channel.ChanState Nat).senderWakers ∧
    (⟨1, [], 2, 0, true, [], none⟩ : Fezer.Channel.ChanState Nat).senderWakers = [] :=
  (recv_success_wakes_all_sender_wakers
      (⟨1, [5], 2, 0, true, [3, 8], none⟩ : Fezer.Channel.ChanState Nat)).1
    5 (⟨1, [], 2, 0, true, [], none⟩ : Fezer.Channel.ChanState Nat) [3, 8] rfl

/-- C8: the receiver-waker cell is an `Option`, so it never holds more than
one waker; when a poll finds the queue empty while sender handles remain
(so the future suspends), the new waker replaces the cell's content and the
call wakes nothing — in particular the previously stored waker is dropped
without being woken. -/
theorem receiver_poll_replaces_waker_unwoken {T : Type}
    (s : Fezer.Channel.ChanState T) (w : Fezer.Waker)
    (hq : s.queue = []) (hr : s.receiverAlive = true)
    (hs : 0 < s.numSenders + s.numSendFuts) :
    Fezer.Channel.Receiver.poll s w =
      (.pending, { s with receiverWaker := some w }, []) := by
  have hcnt : Fezer.Channel.stdSenderCount s ≠ 0 := by
    simp [Fezer.Channel.stdSenderCount]; omega
  have hstrong : ¬ Fezer.Channel.innerStrongCount s < 2 := by
    simp [Fezer.Channel.innerStrongCount, hr]; omega
  simp [Fezer.Channel.Receiver.poll, Fezer.Channel.stdTryRecv, hq, hcnt, hstrong]

/-- Witness for C8: on a concrete empty channel with one live sender and a
stale waker 4 in the cell, polling with waker 9 yields a pending state whose
cell holds only 9 and wakes nothing. -/
theorem receiver_poll_replaces_waker_unwoken_witness :
    Fezer.Channel.Receiver.poll
      (⟨2, [], 1, 0, true, [], some 4⟩ : Fezer.Channel.ChanState Nat) 9 =
      (.pending, (⟨2, [], 1, 0, true, [], some 9⟩ : Fezer.Channel.ChanState Nat), []) :=
  receiver_poll_replaces_waker_unwoken
    (⟨2, [], 1, 0, true, [], some 4⟩ : Fezer.Channel.ChanState Nat) 9
    rfl rfl (by decide)

/-- C10: `SendFut` is single-completion.  Whenever a poll returns `Ready`,
the value cell of the resulting future state is empty, and any further poll
of that future — in any channel state, with any waker — hits the
unconditional `unwrap` of the empty cell at the top of `poll` and panics
(modelled as `none`). -/
theorem sendfut_repoll_after_ready_panics {T : Type}
    (fut fut' : Fezer.Channel.SendFutState T) (s s' : Fezer.Channel.ChanState T)
    (w : Fezer.Waker) (r : Except (Fezer.Channel.SendError T) Unit)
    (h : Fezer.Channel.SendFut.poll fut s w = some (.ready r, fut', s')) :
    fut'.value = none ∧
      ∀ (s2 : Fezer.Channel.ChanState T) (w2 : Fezer.Waker),
        Fezer.Channel.SendFut.poll fut' s2 w2 = none := by
  match hv : fut.value with
  | none => simp [Fezer.Channel.SendFut.poll, hv] at h
  | some v =>
      simp only [Fezer.Channel.SendFut.poll, hv] at h
      have hval : fut'.value = none := by
        rcases hts : Fezer.Channel.stdTrySend s v with ⟨res, s1⟩
        rw [hts] at h
        cases res with
        | ok =>
            simp only [Option.some.injEq, Prod.mk.injEq] at h
            rw [← h.2.1]
        | disconnected v1 =>
            simp only [Option.some.injEq, Prod.mk.injEq] at h
            rw [← h.2.1]
        | full v1 =>
            simp only [Option.some.injEq, Prod.mk.injEq] at h
            exact absurd h.1 (by simp)
      refine ⟨hval, fun s2 w2 => ?_⟩
      simp [Fezer.Channel.SendFut.poll, hval]

/-- C3: under the mutex invariant, at most one `MutexGuard` object exists,
and `locked` is true iff exactly one guard exists; both the guard-creation
path (`try_lock` of the value mutex followed by `MutexGuard::new`) and
`MutexGuard::drop` preserve the invariant. -/
theorem mutex_guard_exclusion_invariant {T : Type}
    (s : Fezer.AsyncMutex.MutexState T) (h : Fezer.AsyncMutex.MutexInv s) :
    s.numGuards ≤ 1 ∧ (s.locked = true ↔ s.numGuards = 1) ∧
    (∀ s', Fezer.AsyncMutex.acquireGuard s = some s' → Fezer.AsyncMutex.MutexInv s') ∧
    (∀ s' tr, Fezer.AsyncMutex.MutexGuard.drop s = some (s', tr) →
        Fezer.AsyncMutex.MutexInv s') := by
  obtain ⟨h1, h2, h3⟩ := h
  refine ⟨h1, h2, ?_, ?_⟩
  · intro s' hacq
    by_cases hv : s.valueLocked = true
    · simp [Fezer.AsyncMutex.acquireGuard, Fezer.AsyncMutex.tryLockValue, hv] at hacq
    · have hng : s.numGuards = 0 := by
        have hne : s.numGuards ≠ 1 := fun he => hv (h3.mpr he)
        omega
      have hl : s.locked = false := by
        cases hcase : s.locked with
        | false => rfl
        | true => exact absurd (h2.mp hcase) (by omega)
      have hcomp : Fezer.AsyncMutex.acquireGuard s =
          some { s with
                  valueLocked := true, locked := true
                  numGuards := s.numGuards + 1 } := by
        simp [Fezer.AsyncMutex.acquireGuard, Fezer.AsyncMutex.tryLockValue,
          Fezer.AsyncMutex.MutexGuard.new, hv, hl]
      rw [hcomp] at hacq
      injection hacq with he
      rw [← he]
      simp [Fezer.AsyncMutex.MutexInv, hng]
  · intro s' tr hdrop
    by_cases hl : s.locked = true
    · have hg1 : s.numGuards = 1 := h2.mp hl
      rw [Fezer.AsyncMutex.MutexGuard.drop, if_neg (by simp [hl])] at hdrop
      injection hdrop with he
      injection he with he1 he2
      rw [← he1]
      simp [Fezer.AsyncMutex.MutexInv, hg1]
    · have hlf : s.locked = false := by
        cases hcase : s.locked with
        | false => rfl
        | true => exact absurd hcase hl
      simp [Fezer.AsyncMutex.MutexGuard.drop, hlf] at hdrop

/-- Witness for C3: the invariant theorem applied to a freshly created
mutex (unlocked, no guards, empty waker queue). -/
theorem mutex_guard_exclusion_invariant_witness :
    (⟨0, false, false, [], 0⟩ : Fezer.AsyncMutex.MutexState Nat).numGuards ≤ 1 ∧
    ((⟨0, false, false, [], 0⟩ : Fezer.AsyncMutex.MutexState Nat).locked = true ↔
      (⟨0, false, false, [], 0⟩ : Fezer.AsyncMutex.MutexState Nat).numGuards = 1) ∧
    (∀ s', Fezer.AsyncMutex.acquireGuard
        (⟨0, false, false, [], 0⟩ : Fezer.AsyncMutex.MutexState Nat) = some s' →
        Fezer.AsyncMutex.MutexInv s') ∧
    (∀ s' tr, Fezer.AsyncMutex.MutexGuard.drop
        (⟨0, false, false, [], 0⟩ : Fezer.AsyncMutex.MutexState Nat) = some (s', tr) →
        Fezer.AsyncMutex.MutexInv s') :=
  mutex_guard_exclusion_invariant
    (⟨0, false, false, [], 0⟩ : Fezer.AsyncMutex.MutexState Nat) (by decide)

/-- C4: dropping a `MutexGuard` while `locked` holds produces exactly the
trace: take the inner lock, set `locked = false`, take the whole waker
FIFO, release the inner lock, drop the value-guard, and only then wake
every taken waker in FIFO order; the successor state has `locked = false`
and an empty waker queue. -/
theorem mutex_guard_drop_order {T : Type}
    (s : Fezer.AsyncMutex.MutexState T) (h : s.locked = true) :
    Fezer.AsyncMutex.MutexGuard.drop s =
      some
        ({ s with
            locked := false, wakers := [], valueLocked := false
            numGuards := s.numGuards - 1 },
          [Fezer.AsyncMutex.MEvent.lockInner, Fezer.AsyncMutex.MEvent.setUnlocked,
            Fezer.AsyncMutex.MEvent.takeWakers, Fezer.AsyncMutex.MEvent.unlockInner,
            Fezer.AsyncMutex.MEvent.dropValueGuard]
            ++ s.wakers.map Fezer.AsyncMutex.MEvent.wake) := by
  simp [Fezer.AsyncMutex.MutexGuard.drop, h]

/-- Witness for C4 at a locked mutex with three queued waiters 1, 2, 3:
the wakes appear last, in FIFO order. -/
theorem mutex_guard_drop_order_witness :
    Fezer.AsyncMutex.MutexGuard.drop
      (⟨7, true, true, [1, 2, 3], 1⟩ : Fezer.AsyncMutex.MutexState Nat) =
      some
        ((⟨7, false, false, [], 0⟩ : Fezer.AsyncMutex.MutexState Nat),
          [Fezer.AsyncMutex.MEvent.lockInner, Fezer.AsyncMutex.MEvent.setUnlocked,
            Fezer.AsyncMutex.MEvent.takeWakers, Fezer.AsyncMutex.MEvent.unlockInner,
            Fezer.AsyncMutex.MEvent.dropValueGuard, Fezer.AsyncMutex.MEvent.wake 1,
            Fezer.AsyncMutex.MEvent.wake 2, Fezer.AsyncMutex.MEvent.wake 3]) :=
  mutex_guard_drop_order
    (⟨7, true, true, [1, 2, 3], 1⟩ : Fezer.AsyncMutex.MutexState Nat) rfl

/-- Witness for C10: a concrete first poll pushes the value and completes;
the re-poll of the completed future panics. -/
theorem sendfut_repoll_after_ready_panics_witness :
    (⟨none⟩ : Fezer.Channel.SendFutState Nat).value = none ∧
      ∀ (s2 : Fezer.Channel.ChanState Nat) (w2 : Fezer.Waker),
        Fezer.Channel.SendFut.poll (⟨none⟩ : Fezer.Channel.SendFutState Nat) s2 w2 = none :=
  sendfut_repoll_after_ready_panics
    (⟨some 5⟩ : Fezer.Channel.SendFutState Nat)
    (⟨none⟩ : Fezer.Channel.SendFutState Nat)
    (⟨1, [], 1, 1, true, [], none⟩ : Fezer.Channel.ChanState Nat)
    (⟨1, [5], 1, 1, true, [], none⟩ : Fezer.Channel.ChanState Nat)
    3 (.ok ()) rfl

/-- C7: `ThreadPool::new` rejects an empty name and a zero size with a
`Parameter` error before anything is spawned (the event trace is empty, so
`start_threads` is never reached), and only for a non-empty name and
`size ≥ 1` does it proceed to create the pool: the result is then never a
`Parameter` error and `start_threads` runs. -/
theorem threadpool_new_validates_params (env : Fezer.Pool.SpawnEnv)
    (name : String) (size : Nat) :
    ((name = "" ∨ size = 0) →
      (∃ m, (Fezer.Pool.ThreadPool.new env name size).1 =
          .error (.Parameter m)) ∧
        (Fezer.Pool.ThreadPool.new env name size).2 = []) ∧
    (name ≠ "" → 1 ≤ size →
      (∀ m, (Fezer.Pool.ThreadPool.new env name size).1 ≠
          .error (.Parameter m)) ∧
        (Fezer.Pool.ThreadPool.new env name size).2 =
          [Fezer.Pool.PEvent.replenish]) := by
  constructor
  · rintro (h | h)
    · refine ⟨⟨"ThreadPool::new called with empty name", ?_⟩, ?_⟩ <;>
        simp [Fezer.Pool.ThreadPool.new, h]
    · by_cases hn : name = ""
      · refine ⟨⟨"ThreadPool::new called with empty name", ?_⟩, ?_⟩ <;>
          simp [Fezer.Pool.ThreadPool.new, hn]
      · refine ⟨⟨"ThreadPool::new called with invalid size value: "
            ++ toString size, ?_⟩, ?_⟩ <;>
          simp [Fezer.Pool.ThreadPool.new, hn, h]
  · intro hn hs
    have hs' : ¬ size < 1 := by omega
    simp only [Fezer.Pool.ThreadPool.new, if_neg hn, if_neg hs']
    rcases hst : Fezer.Pool.startThreads env
        ⟨name, size, 0, 0, size * 200, 1, 0⟩ with e | p
    · cases e <;> simp [hst, Fezer.Pool.NewThreadPoolError.fromStart]
    · simp [hst]

/-- Witness for C7: `new("", 5)` is rejected without spawning, while
`new("w", 2)` proceeds past validation. -/
theorem threadpool_new_validates_params_witness :
    ((∃ m, (Fezer.Pool.ThreadPool.new ⟨none⟩ "" 5).1 =
        .error (.Parameter m)) ∧
      (Fezer.Pool.ThreadPool.new ⟨none⟩ "" 5).2 = []) ∧
    ((∀ m, (Fezer.Pool.ThreadPool.new ⟨none⟩ "w" 2).1 ≠
        .error (.Parameter m)) ∧
      (Fezer.Pool.ThreadPool.new ⟨none⟩ "w" 2).2 =
        [Fezer.Pool.PEvent.replenish]) :=
  ⟨(threadpool_new_validates_params ⟨none⟩ "" 5).1 (Or.inl rfl),
    (threadpool_new_validates_params ⟨none⟩ "w" 2).2 (by decide) (by decide)⟩

/-- C9: for a pool handle whose shared `Inner` (and hence the job-queue
receiver it owns) is alive, neither `schedule` nor `try_schedule` can ever
reach the `unreachable!()` branch of `try_send`: the job queue is never
observed as disconnected. -/
theorem pool_schedule_disconnected_unreachable (env : Fezer.Pool.SpawnEnv)
    (p : Fezer.Pool.ThreadPool) (h : 1 ≤ p.receiverCount) :
    (∀ fuel, Fezer.Pool.ThreadPool.schedule env fuel p ≠
      some Fezer.Pool.SchedOutcome.panicked) ∧
    Fezer.Pool.ThreadPool.try_schedule env p ≠ Fezer.Pool.TryOutcome.panicked := by
  constructor
  · intro fuel
    exact Fezer.Pool.scheduleGo_no_panic env fuel p [] h
  · unfold Fezer.Pool.ThreadPool.try_schedule
    rcases hts : Fezer.Pool.stdTrySendJob p with ⟨res, p2⟩
    have hcon := Fezer.Pool.stdTrySendJob_connected p h
    rw [hts] at hcon
    cases res with
    | ok =>
        rcases hst : Fezer.Pool.startThreads env p2 with e | p3 <;> simp [hst]
    | full => simp
    | disconnected => exact absurd rfl hcon.1

/-- Witness for C9 at a fresh pool of size 2 with the receiver alive. -/
theorem pool_schedule_disconnected_unreachable_witness :
    (∀ fuel, Fezer.Pool.ThreadPool.schedule ⟨none⟩ fuel
        (⟨"w", 2, 0, 0, 400, 1, 0⟩ : Fezer.Pool.ThreadPool) ≠
      some Fezer.Pool.SchedOutcome.panicked) ∧
    Fezer.Pool.ThreadPool.try_schedule ⟨none⟩
        (⟨"w", 2, 0, 0, 400, 1, 0⟩ : Fezer.Pool.ThreadPool) ≠
      Fezer.Pool.TryOutcome.panicked :=
  pool_schedule_disconnected_unreachable ⟨none⟩
    (⟨"w", 2, 0, 0, 400, 1, 0⟩ : Fezer.Pool.ThreadPool) (by decide)

/-- C5 counterexample: on a healthy pool (workers at target, queue with
room) `schedule` performs exactly one replenish attempt, then the enqueue,
and returns; the enqueue is the last event, so no replenish attempt happens
after the job is enqueued — refuting "replenishes both before and after
enqueuing". -/
theorem schedule_no_replenish_after_enqueue :
    Fezer.Pool.ThreadPool.schedule ⟨none⟩ 1
        (⟨"w", 1, 1, 0, 200, 1, 1⟩ : Fezer.Pool.ThreadPool) =
      some (.done (⟨"w", 1, 1, 1, 200, 1, 1⟩ : Fezer.Pool.ThreadPool)
        [Fezer.Pool.PEvent.replenish, Fezer.Pool.PEvent.enqueue]) ∧
    [Fezer.Pool.PEvent.replenish, Fezer.Pool.PEvent.enqueue].getLast? =
      some Fezer.Pool.PEvent.enqueue := by
  constructor
  · rfl
  · rfl

/-- C5 (amended): every call to `ThreadPool::schedule` attempts to
replenish workers (`start_threads`) immediately before each enqueue
attempt, and a completed call ends with the successful enqueue — no
replenish attempt follows it. -/
theorem schedule_replenishes_before_enqueue (env : Fezer.Pool.SpawnEnv)
    (fuel : Nat) (p p' : Fezer.Pool.ThreadPool) (tr : List Fezer.Pool.PEvent)
    (h : Fezer.Pool.ThreadPool.schedule env fuel p =
      some (Fezer.Pool.SchedOutcome.done p' tr)) :
    ∃ pre, tr = pre ++ [Fezer.Pool.PEvent.replenish, Fezer.Pool.PEvent.enqueue] :=
  Fezer.Pool.scheduleGo_done_trace env fuel p [] p' tr h

/-- Witness for the amended C5 on a concrete healthy pool. -/
theorem schedule_replenishes_before_enqueue_witness :
    ∃ pre, [Fezer.Pool.PEvent.replenish, Fezer.Pool.PEvent.enqueue] =
      pre ++ [Fezer.Pool.PEvent.replenish, Fezer.Pool.PEvent.enqueue] :=
  schedule_replenishes_before_enqueue ⟨none⟩ 1
    (⟨"w", 1, 1, 0, 200, 1, 1⟩ : Fezer.Pool.ThreadPool)
    (⟨"w", 1, 1, 1, 200, 1, 1⟩ : Fezer.Pool.ThreadPool)
    [Fezer.Pool.PEvent.replenish, Fezer.Pool.PEvent.enqueue] rfl

/-- C6 counterexample: converting `NewThreadPoolError::Spawn` to a
standard I/O error does not preserve the underlying kind — a spawn failure
of kind `PermissionDenied` maps to kind `Other`. -/
theorem new_pool_spawn_error_kind_not_preserved :
    (Fezer.Pool.NewThreadPoolError.Spawn
        ⟨Fezer.Pool.ErrorKind.permissionDenied, "boom"⟩).toIoError.kind =
      Fezer.Pool.ErrorKind.other ∧
    Fezer.Pool.ErrorKind.other ≠ Fezer.Pool.ErrorKind.permissionDenied := by
  decide

/-- C6 (amended): the conversions to a standard I/O error map a
`Parameter` error to the invalid-input kind and `QueueFull` to the
would-block kind; `TryScheduleError::NoThreads` and
`TryScheduleError::Respawn` preserve the underlying I/O error's kind,
while `NewThreadPoolError::Spawn` always maps to the catch-all `Other`
kind regardless of the underlying kind. -/
theorem pool_error_to_io_error_mapping (s : String) (e : Fezer.Pool.IoError) :
    (Fezer.Pool.NewThreadPoolError.Parameter s).toIoError.kind =
      Fezer.Pool.ErrorKind.invalidInput ∧
    (Fezer.Pool.NewThreadPoolError.Spawn e).toIoError.kind =
      Fezer.Pool.ErrorKind.other ∧
    Fezer.Pool.TryScheduleError.QueueFull.toIoError.kind =
      Fezer.Pool.ErrorKind.wouldBlock ∧
    (Fezer.Pool.TryScheduleError.NoThreads e).toIoError.kind = e.kind ∧
    (Fezer.Pool.TryScheduleError.Respawn e).toIoError.kind = e.kind :=
  ⟨rfl, rfl, rfl, rfl, rfl⟩
